import Mathlib

/-
Shallow embedding of the SDN congestion-control controller
(src/controller/Controller_UnifiedController.py) together with the
per-interval feature step of src/tools/parse_logs.py.

Modelling conventions:
  - Timestamps and computed rates are rationals (the Python code uses
    floats; the float literal 1e-9 is modelled as the exact rational
    10^-9).  Byte and packet counters are integers, as in the source,
    where deltas are plain integer subtraction.
  - A switch handle (Ryu datapath) is identified by its dpid; each
    message submitted through a handle is tagged with that dpid.
  - Python dicts are association lists with first-match lookup; dict
    assignment removes the old binding and prepends the new one.
  - dp.send_msg is modelled by a parameter sendResult : SwMsg -> Option
    String; none means the submission succeeds, some e means it raises
    an exception whose text is e.  State mutated before a raising send
    stays mutated, exactly as in the in-place Python code.
  - The AgentManager (PolicyOracle) is external: the stats-reply
    handler is parameterised by an oracle function returning an action
    identifier from the observed dpid, port and rates.
  - File output (the stats_log.csv append) is input/output and is not
    modelled; no claim concerns it.
-/

namespace SDNCC

/-- OpenFlow 1.3 reserved port OFPP_NORMAL. -/
def OFPP_NORMAL : ℕ := 0xfffffffa

/-- OpenFlow 1.3 reserved port OFPP_FLOOD. -/
def OFPP_FLOOD : ℕ := 0xfffffffb

/-- OpenFlow 1.3 reserved port OFPP_CONTROLLER. -/
def OFPP_CONTROLLER : ℕ := 0xfffffffd

/-- Ethertype of LLDP discovery frames, ignored by the packet-in handler. -/
def ETH_TYPE_LLDP : ℕ := 0x88cc

/-- Action identifier 0: no operation. -/
def ACT_NOOP : ℕ := 0

/-- Action identifier 1: rate-limit the ingress port with a meter. -/
def ACT_METER : ℕ := 1

/-- Action identifier 2: drop all ingress traffic on the port. -/
def ACT_DROP : ℕ := 2

/-- Action identifier 3: reroute stub (flood). -/
def ACT_REROUTE : ℕ := 3

/-- Default meter rate cap in kbps (DEFAULT_LIMIT_KBPS in the source). -/
def DEFAULT_LIMIT_KBPS : ℕ := 5000

/-- Default idle timeout in seconds for temporary rules (DEFAULT_IDLE_TO). -/
def DEFAULT_IDLE_TO : ℕ := 20

/-- An OpenFlow action inside an instruction list. -/
inductive OFAction
  | output (port : ℕ)
deriving DecidableEq, Repr

/-- An OpenFlow instruction of a flow mod. -/
inductive Instr
  | meter (meter_id : ℕ)
  | applyActions (acts : List OFAction)
deriving DecidableEq, Repr

/-- A flow-table mutation as built by parser.OFPFlowMod in the source:
match fields actually used are in_port, eth_dst and eth_src. -/
structure FlowMod where
  dpid : ℕ
  priority : ℕ
  match_in_port : Option ℕ
  match_eth_dst : Option ℕ
  match_eth_src : Option ℕ
  instructions : List Instr
  idle_timeout : ℕ
  hard_timeout : ℕ
deriving DecidableEq, Repr

/-- A message submitted to a switch handle via dp.send_msg. -/
inductive SwMsg
  | flowMod (fm : FlowMod)
  | meterMod (dpid meter_id rate_kbps : ℕ)
  | packetOut (dpid in_port : ℕ) (acts : List OFAction)
  | portStatsRequest (dpid : ℕ)
deriving DecidableEq, Repr

/-- The switch identifier a message is submitted to. -/
def msgDpid : SwMsg → ℕ
  | SwMsg.flowMod fm => fm.dpid
  | SwMsg.meterMod d _ _ => d
  | SwMsg.packetOut d _ _ => d
  | SwMsg.portStatsRequest d => d

/-- Tester for meter-create mutations. -/
def is_meter_mod : SwMsg → Bool
  | SwMsg.meterMod _ _ _ => true
  | _ => false

/-- A structured log record; each constructor is one logger call of the
source, carrying exactly the arguments that call formats. -/
inductive LogRec
  | agentAction (dpid port_no : ℕ) (tx_bps rx_bps : ℚ) (action : ℕ)
  | enforceError (dpid port_no : ℕ) (msg : String)
  | installedMeterFlow (dpid in_port meter_id limit_kbps : ℕ)
  | installedDrop (dpid in_port idle_to : ℕ)
  | rerouteStub (dpid in_port : ℕ)
  | createdMeter (dpid meter_id rate_kbps : ℕ)
deriving DecidableEq, Repr

/-- The per-port sample stored in last_stats by the stats-reply handler. -/
structure Sample where
  timestamp : ℚ
  rx_bytes : ℤ
  tx_bytes : ℤ
  rx_packets : ℤ
  tx_packets : ℤ
  duration_sec : ℤ
deriving DecidableEq, Repr

/-- One per-port entry of a port-stats reply body. -/
structure PortStat where
  port_no : ℕ
  rx_bytes : ℤ
  tx_bytes : ℤ
  rx_packets : ℤ
  tx_packets : ℤ
  duration_sec : ℤ
deriving DecidableEq, Repr

/-- First-match lookup in an association list, the model of a Python
dict read. -/
def alookup {α β : Type} [DecidableEq α] (k : α) : List (α × β) → Option β
  | [] => none
  | (k0, v) :: rest => if k0 = k then some v else alookup k rest

/-- Dict assignment: remove any old binding of the key and prepend the
new one, so each key is bound at most once. -/
def dictInsert {α β : Type} [DecidableEq α] (k : α) (v : β) (m : List (α × β)) :
    List (α × β) :=
  (k, v) :: m.filter (fun p => decide (p.1 ≠ k))

/-- The mutable state of UnifiedController (its __init__ fields that the
claims concern): mac_to_port, datapaths (the live-connection registry,
keyed by dpid), last_stats and meter_installed. -/
structure ControllerState where
  mac_to_port : List (ℕ × List (ℕ × ℕ))
  datapaths : List ℕ
  last_stats : List ((ℕ × ℕ) × Sample)
  meter_installed : List (ℕ × ℕ)
deriving DecidableEq, Repr

/-- The table-miss flow installed on connect: priority 0, empty match,
output to the controller. -/
def table_miss_flow_mod (dpid : ℕ) : FlowMod :=
  { dpid := dpid, priority := 0, match_in_port := none, match_eth_dst := none,
    match_eth_src := none,
    instructions := [Instr.applyActions [OFAction.output OFPP_CONTROLLER]],
    idle_timeout := 0, hard_timeout := 0 }

/-- The learning-switch unicast flow installed by the packet-in handler:
priority 1, match on in_port, eth_dst and eth_src, idle timeout 60. -/
def learn_flow_mod (dpid in_port dst src out_port : ℕ) : FlowMod :=
  { dpid := dpid, priority := 1, match_in_port := some in_port,
    match_eth_dst := some dst, match_eth_src := some src,
    instructions := [Instr.applyActions [OFAction.output out_port]],
    idle_timeout := 60, hard_timeout := 0 }

/-- The rate-limit flow installed for action 1: priority 300, meter
instruction then forward normally, idle timeout DEFAULT_IDLE_TO. -/
def meter_flow_mod (dpid in_port : ℕ) : FlowMod :=
  { dpid := dpid, priority := 300, match_in_port := some in_port,
    match_eth_dst := none, match_eth_src := none,
    instructions := [Instr.meter (1000 + in_port),
                     Instr.applyActions [OFAction.output OFPP_NORMAL]],
    idle_timeout := DEFAULT_IDLE_TO, hard_timeout := 0 }

/-- The drop flow installed for action 2: priority 400 and an empty
instruction list, which discards matching packets. -/
def drop_flow_mod (dpid in_port : ℕ) : FlowMod :=
  { dpid := dpid, priority := 400, match_in_port := some in_port,
    match_eth_dst := none, match_eth_src := none,
    instructions := [], idle_timeout := DEFAULT_IDLE_TO, hard_timeout := 0 }

/-- The reroute-stub flow installed for action 3: priority 200, flood. -/
def reroute_flow_mod (dpid in_port : ℕ) : FlowMod :=
  { dpid := dpid, priority := 200, match_in_port := some in_port,
    match_eth_dst := none, match_eth_src := none,
    instructions := [Instr.applyActions [OFAction.output OFPP_FLOOD]],
    idle_timeout := DEFAULT_IDLE_TO, hard_timeout := 0 }

/-- Result of an enforcement helper: the controller state after the
call, the messages submitted so far, the log records emitted, and the
exception in flight (some e when a send raised with message e). -/
structure EnfOut where
  state : ControllerState
  msgs : List SwMsg
  logs : List LogRec
  err : Option String
deriving DecidableEq, Repr

/-- Result of the caught enforcement call of the stats-reply handler
(the try/except around _enforce_action swallows the exception). -/
structure EnfResult where
  state : ControllerState
  msgs : List SwMsg
  logs : List LogRec
deriving DecidableEq, Repr

/-- Embedding of UnifiedController._ensure_meter: create a drop-band
meter only when (dpid, meter_id) is not recorded in meter_installed; the
record is added after the send succeeds, so a raising send leaves the
set unchanged. -/
def ensure_meter (sendResult : SwMsg → Option String) (st : ControllerState)
    (dpid meter_id rate_kbps : ℕ) : EnfOut :=
  if (dpid, meter_id) ∈ st.meter_installed then
    { state := st, msgs := [], logs := [], err := none }
  else
    match sendResult (SwMsg.meterMod dpid meter_id rate_kbps) with
    | some e => { state := st, msgs := [], logs := [], err := some e }
    | none =>
      { state := { st with meter_installed := (dpid, meter_id) :: st.meter_installed },
        msgs := [SwMsg.meterMod dpid meter_id rate_kbps],
        logs := [LogRec.createdMeter dpid meter_id rate_kbps],
        err := none }

/-- Embedding of UnifiedController._enforce_action: the if/elif chain on
the action identifier.  Action 0 returns at once; 1 ensures the meter
1000 + in_port and installs the priority-300 meter flow; 2 installs the
priority-400 drop flow; 3 installs the priority-200 flood flow; any
other identifier falls through every branch and does nothing. -/
def enforce_action (sendResult : SwMsg → Option String) (st : ControllerState)
    (dpid in_port action_id : ℕ) : EnfOut :=
  if action_id = 0 then
    { state := st, msgs := [], logs := [], err := none }
  else if action_id = 1 then
    let r := ensure_meter sendResult st dpid (1000 + in_port) DEFAULT_LIMIT_KBPS
    match r.err with
    | some e => { state := r.state, msgs := r.msgs, logs := r.logs, err := some e }
    | none =>
      match sendResult (SwMsg.flowMod (meter_flow_mod dpid in_port)) with
      | some e => { state := r.state, msgs := r.msgs, logs := r.logs, err := some e }
      | none =>
        { state := r.state,
          msgs := r.msgs ++ [SwMsg.flowMod (meter_flow_mod dpid in_port)],
          logs := r.logs ++ [LogRec.installedMeterFlow dpid in_port (1000 + in_port) DEFAULT_LIMIT_KBPS],
          err := none }
  else if action_id = 2 then
    match sendResult (SwMsg.flowMod (drop_flow_mod dpid in_port)) with
    | some e => { state := st, msgs := [], logs := [], err := some e }
    | none =>
      { state := st, msgs := [SwMsg.flowMod (drop_flow_mod dpid in_port)],
        logs := [LogRec.installedDrop dpid in_port DEFAULT_IDLE_TO], err := none }
  else if action_id = 3 then
    match sendResult (SwMsg.flowMod (reroute_flow_mod dpid in_port)) with
    | some e => { state := st, msgs := [], logs := [], err := some e }
    | none =>
      { state := st, msgs := [SwMsg.flowMod (reroute_flow_mod dpid in_port)],
        logs := [LogRec.rerouteStub dpid in_port], err := none }
  else
    { state := st, msgs := [], logs := [], err := none }

/-- The try/except around the _enforce_action call in the stats-reply
handler: a raised exception is converted into an error log record
carrying the dpid, the port number and the exception text. -/
def enforce_caught (sendResult : SwMsg → Option String) (st : ControllerState)
    (dpid port_no action : ℕ) : EnfResult :=
  let r := enforce_action sendResult st dpid port_no action
  match r.err with
  | some e =>
    { state := r.state, msgs := r.msgs,
      logs := r.logs ++ [LogRec.enforceError dpid port_no e] }
  | none => { state := r.state, msgs := r.msgs, logs := r.logs }

/-- The sample the handler builds from one reply entry at time now. -/
def mkSample (now : ℚ) (stat : PortStat) : Sample :=
  { timestamp := now, rx_bytes := stat.rx_bytes, tx_bytes := stat.tx_bytes,
    rx_packets := stat.rx_packets, tx_packets := stat.tx_packets,
    duration_sec := stat.duration_sec }

/-- One observation handed to the oracle together with the action it
returned. -/
structure Decision where
  dpid : ℕ
  port_no : ℕ
  tx_bps : ℚ
  rx_bps : ℚ
  action : ℕ
deriving DecidableEq, Repr

/-- Output of processing part or all of one stats reply. -/
structure StepOut where
  state : ControllerState
  msgs : List SwMsg
  logs : List LogRec
  decisions : List Decision
deriving DecidableEq, Repr

/-- The decision part of the stats-reply loop body, reached when a
previous sample exists: dt is clamped below by 10^-9 (the source's
max(1e-9, now - prev timestamp)), and when both byte deltas are
non-negative the rates delta * 8 / dt are computed, the oracle is
consulted and its action enforced under the try/except. -/
def decision_step (sendResult : SwMsg → Option String)
    (oracle : ℕ → ℕ → ℚ → ℚ → ℕ) (now : ℚ) (dpid : ℕ)
    (st : ControllerState) (stat : PortStat) (prev : Sample) : StepOut :=
  let dt := max ((1 : ℚ) / 1000000000) (now - prev.timestamp)
  if stat.tx_bytes - prev.tx_bytes ≥ 0 ∧ stat.rx_bytes - prev.rx_bytes ≥ 0 then
    let tx_bps := ((stat.tx_bytes - prev.tx_bytes : ℤ) : ℚ) * 8 / dt
    let rx_bps := ((stat.rx_bytes - prev.rx_bytes : ℤ) : ℚ) * 8 / dt
    let action := oracle dpid stat.port_no tx_bps rx_bps
    let r := enforce_caught sendResult st dpid stat.port_no action
    { state := r.state, msgs := r.msgs,
      logs := LogRec.agentAction dpid stat.port_no tx_bps rx_bps action :: r.logs,
      decisions := [{ dpid := dpid, port_no := stat.port_no, tx_bps := tx_bps,
                      rx_bps := rx_bps, action := action }] }
  else
    { state := st, msgs := [], logs := [], decisions := [] }

/-- The body of the stats-reply loop for one reply entry: look up the
previous sample, run the decision part when it exists, and in every case
record the current sample as the new previous sample. -/
def process_stat (sendResult : SwMsg → Option String)
    (oracle : ℕ → ℕ → ℚ → ℚ → ℕ) (now : ℚ) (dpid : ℕ)
    (st : ControllerState) (stat : PortStat) : StepOut :=
  let out :=
    match alookup (dpid, stat.port_no) st.last_stats with
    | some prev => decision_step sendResult oracle now dpid st stat prev
    | none => { state := st, msgs := [], logs := [], decisions := [] }
  { out with
    state := { out.state with
      last_stats := dictInsert (dpid, stat.port_no) (mkSample now stat) out.state.last_stats } }

/-- The loop of the stats-reply handler over the reply body, threading
the controller state and collecting messages, logs and decisions. -/
def stats_loop (sendResult : SwMsg → Option String)
    (oracle : ℕ → ℕ → ℚ → ℚ → ℕ) (now : ℚ) (dpid : ℕ)
    (st : ControllerState) : List PortStat → StepOut
  | [] => { state := st, msgs := [], logs := [], decisions := [] }
  | stat :: rest =>
    let o := process_stat sendResult oracle now dpid st stat
    let r := stats_loop sendResult oracle now dpid o.state rest
    { state := r.state, msgs := o.msgs ++ r.msgs, logs := o.logs ++ r.logs,
      decisions := o.decisions ++ r.decisions }

/-- Embedding of UnifiedController._port_stats_reply_handler: dpid and
the body come from the event message itself; the registry of live
datapaths is not consulted.  The csv append at the end is file
input/output and is not modelled. -/
def port_stats_reply_handler (sendResult : SwMsg → Option String)
    (oracle : ℕ → ℕ → ℚ → ℚ → ℕ) (now : ℚ) (dpid : ℕ)
    (body : List PortStat) (st : ControllerState) : StepOut :=
  stats_loop sendResult oracle now dpid st body

/-- Dispatcher states of EventOFPStateChange that the handler reacts
to. -/
inductive DispatcherState
  | main
  | dead
deriving DecidableEq, Repr

/-- Embedding of UnifiedController.state_change_handler: MAIN_DISPATCHER
stores the datapath under its dpid, DEAD_DISPATCHER pops that key from
the registry of datapaths, and nothing else is touched. -/
def state_change_handler (st : ControllerState) (dpid : ℕ)
    (s : DispatcherState) : ControllerState :=
  match s with
  | DispatcherState.main =>
    { st with datapaths := if dpid ∈ st.datapaths then st.datapaths else dpid :: st.datapaths }
  | DispatcherState.dead =>
    { st with datapaths := st.datapaths.filter (fun d => decide (d ≠ dpid)) }

/-- Embedding of UnifiedController.switch_features_handler: register
the datapath and install the table-miss flow. -/
def switch_features_handler (st : ControllerState) (dpid : ℕ) :
    ControllerState × List SwMsg :=
  ({ st with datapaths := if dpid ∈ st.datapaths then st.datapaths else dpid :: st.datapaths },
   [SwMsg.flowMod (table_miss_flow_mod dpid)])

/-- Embedding of UnifiedController._packet_in: ignore LLDP, learn the
source MAC on the ingress port, look the destination up in the updated
table, install a priority-1 unicast flow when the destination is known,
and always emit the packet-out. -/
def packet_in (st : ControllerState) (dpid in_port src dst eth_type : ℕ) :
    ControllerState × List SwMsg :=
  if eth_type = ETH_TYPE_LLDP then (st, [])
  else
    let tbl := (alookup dpid st.mac_to_port).getD []
    let tbl2 := dictInsert src in_port tbl
    let st2 := { st with mac_to_port := dictInsert dpid tbl2 st.mac_to_port }
    match alookup dst tbl2 with
    | some out_port =>
      (st2, [SwMsg.flowMod (learn_flow_mod dpid in_port dst src out_port),
             SwMsg.packetOut dpid in_port [OFAction.output out_port]])
    | none =>
      (st2, [SwMsg.packetOut dpid in_port [OFAction.output OFPP_FLOOD]])

/-- One tick of UnifiedController._monitor: a port-stats request is sent
to every datapath currently in the registry, and to nothing else. -/
def monitor_tick (st : ControllerState) : List SwMsg :=
  st.datapaths.map (fun d => SwMsg.portStatsRequest d)

/-- Embedding of the loop body of parse_logs.compute_features for one
consecutive pair of records of the same (dpid, port_no): none when the
interval is discarded (dt less than or equal to 0, or any delta
negative), otherwise the four rates (tx_bps, rx_bps, tx_pps, rx_pps). -/
def compute_features_step (prev cur : Sample) : Option (ℚ × ℚ × ℚ × ℚ) :=
  let dt := cur.timestamp - prev.timestamp
  if dt ≤ 0 then none
  else
    if cur.tx_bytes - prev.tx_bytes < 0 ∨ cur.rx_bytes - prev.rx_bytes < 0 ∨
        cur.tx_packets - prev.tx_packets < 0 ∨ cur.rx_packets - prev.rx_packets < 0 then
      none
    else
      some (((cur.tx_bytes - prev.tx_bytes : ℤ) : ℚ) * 8 / dt,
            ((cur.rx_bytes - prev.rx_bytes : ℤ) : ℚ) * 8 / dt,
            ((cur.tx_packets - prev.tx_packets : ℤ) : ℚ) / dt,
            ((cur.rx_packets - prev.rx_packets : ℤ) : ℚ) / dt)

/-- The empty controller state, as after __init__. -/
def st0 : ControllerState :=
  { mac_to_port := [], datapaths := [], last_stats := [], meter_installed := [] }

/-- A sendResult under which every submission raises with the same
connection-failure text. -/
def fail_all : SwMsg → Option String := fun _ => some "Datapath unreachable"

/-- Concrete previous sample for (dpid 1, port 3) taken at time 0 with
rx_bytes 1000 and tx_bytes 2000 (the end-to-end scenario of the spec). -/
def s13_prev : Sample :=
  { timestamp := 0, rx_bytes := 1000, tx_bytes := 2000, rx_packets := 0,
    tx_packets := 0, duration_sec := 0 }

/-- Controller state holding only the previous sample for (1, 3); the
registry of datapaths is empty (switch 1 is not registered). -/
def st13 : ControllerState :=
  { mac_to_port := [], datapaths := [], last_stats := [((1, 3), s13_prev)],
    meter_installed := [] }

/-- Reply entry for port 3 with rx_bytes 9000 and tx_bytes 10000 (the
end-to-end scenario of the spec). -/
def stat13 : PortStat :=
  { port_no := 3, rx_bytes := 9000, tx_bytes := 10000, rx_packets := 0,
    tx_packets := 0, duration_sec := 1 }

/-- Reply entry for port 3 whose rx counter decreased below the previous
sample (a counter reset). -/
def stat13_reset : PortStat :=
  { port_no := 3, rx_bytes := 100, tx_bytes := 2000, rx_packets := 0,
    tx_packets := 0, duration_sec := 2 }

/-- Previous sample for (1, 3) taken at time 5, for the non-positive
elapsed-time scenario. -/
def s13_at5 : Sample :=
  { timestamp := 5, rx_bytes := 1000, tx_bytes := 2000, rx_packets := 0,
    tx_packets := 0, duration_sec := 0 }

/-- Controller state holding the time-5 sample for (1, 3). -/
def st13_at5 : ControllerState :=
  { mac_to_port := [], datapaths := [1], last_stats := [((1, 3), s13_at5)],
    meter_installed := [] }

/-- Reply entry for port 3 with the same counters as the time-5 sample. -/
def stat13_same : PortStat :=
  { port_no := 3, rx_bytes := 1000, tx_bytes := 2000, rx_packets := 0,
    tx_packets := 0, duration_sec := 0 }

/-- A sample with a populated value in every field, for the disconnect
counterexample. -/
def sampleA : Sample :=
  { timestamp := 7, rx_bytes := 1000, tx_bytes := 2000, rx_packets := 10,
    tx_packets := 20, duration_sec := 5 }

/-- Controller state in which switch 1 owns an entry in every per-switch
map: forwarding table, registry, last-sample store and installed-meter
set. -/
def stFull : ControllerState :=
  { mac_to_port := [(1, [(101, 2)])], datapaths := [1],
    last_stats := [((1, 3), sampleA)], meter_installed := [(1, 1003)] }

/-- Lookup after dict assignment of the same key returns the assigned
value. -/
theorem alookup_dictInsert_self {α β : Type} [DecidableEq α] (k : α) (v : β)
    (m : List (α × β)) : alookup k (dictInsert k v m) = some v := by
  simp [dictInsert, alookup]

/-- Every message submitted by _ensure_meter targets the dpid it was
called with. -/
theorem ensure_meter_msgs_dpid (sendResult : SwMsg → Option String)
    (st : ControllerState) (dpid meter_id rate_kbps : ℕ) :
    ∀ m ∈ (ensure_meter sendResult st dpid meter_id rate_kbps).msgs, msgDpid m = dpid := by
  intro m hm
  unfold ensure_meter at hm
  split at hm
  · simp at hm
  · split at hm
    · simp at hm
    · simp at hm
      subst hm
      rfl

/-- With a sendResult that never raises, _ensure_meter never reports an
exception. -/
theorem ensure_meter_ok_err (st : ControllerState) (dpid meter_id rate_kbps : ℕ) :
    (ensure_meter (fun _ => none) st dpid meter_id rate_kbps).err = none := by
  unfold ensure_meter
  split
  · rfl
  · rfl

/-- Every message submitted by _enforce_action targets the dpid it was
called with. -/
theorem enforce_action_msgs_dpid (sendResult : SwMsg → Option String)
    (st : ControllerState) (dpid in_port action_id : ℕ) :
    ∀ m ∈ (enforce_action sendResult st dpid in_port action_id).msgs, msgDpid m = dpid := by
  intro m hm
  simp only [enforce_action] at hm
  split at hm
  · simp at hm
  · split at hm
    · cases herr : (ensure_meter sendResult st dpid (1000 + in_port) DEFAULT_LIMIT_KBPS).err with
      | some e =>
        rw [herr] at hm
        simp at hm
        exact ensure_meter_msgs_dpid sendResult st dpid (1000 + in_port) DEFAULT_LIMIT_KBPS m hm
      | none =>
        rw [herr] at hm
        cases hsend : sendResult (SwMsg.flowMod (meter_flow_mod dpid in_port)) with
        | some e =>
          rw [hsend] at hm
          simp at hm
          exact ensure_meter_msgs_dpid sendResult st dpid (1000 + in_port) DEFAULT_LIMIT_KBPS m hm
        | none =>
          rw [hsend] at hm
          simp at hm
          rcases hm with hm | hm
          · exact ensure_meter_msgs_dpid sendResult st dpid (1000 + in_port) DEFAULT_LIMIT_KBPS m hm
          · subst hm
            rfl
    · split at hm
      · split at hm
        · simp at hm
        · simp at hm
          subst hm
          rfl
      · split at hm
        · split at hm
          · simp at hm
          · simp at hm
            subst hm
            rfl
        · simp at hm

/-- Every message submitted by the caught enforcement call targets the
dpid it was called with. -/
theorem enforce_caught_msgs_dpid (sendResult : SwMsg → Option String)
    (st : ControllerState) (dpid port_no action : ℕ) :
    ∀ m ∈ (enforce_caught sendResult st dpid port_no action).msgs, msgDpid m = dpid := by
  intro m hm
  simp only [enforce_caught] at hm
  split at hm
  · simp at hm
    exact enforce_action_msgs_dpid sendResult st dpid port_no action m hm
  · simp at hm
    exact enforce_action_msgs_dpid sendResult st dpid port_no action m hm

/-- Every message submitted while processing one reply entry targets
the dpid of the reply event. -/
theorem process_stat_msgs_dpid (sendResult : SwMsg → Option String)
    (oracle : ℕ → ℕ → ℚ → ℚ → ℕ) (now : ℚ) (dpid : ℕ)
    (st : ControllerState) (stat : PortStat) :
    ∀ m ∈ (process_stat sendResult oracle now dpid st stat).msgs, msgDpid m = dpid := by
  intro m hm
  unfold process_stat at hm
  split at hm
  · unfold decision_step at hm
    split at hm
    · simp at hm
      exact enforce_caught_msgs_dpid sendResult st dpid stat.port_no _ m hm
    · simp at hm
  · simp at hm

/-- Every message submitted by the stats-reply loop targets the dpid of
the reply event. -/
theorem stats_loop_msgs_dpid (sendResult : SwMsg → Option String)
    (oracle : ℕ → ℕ → ℚ → ℚ → ℕ) (now : ℚ) (dpid : ℕ) :
    ∀ (body : List PortStat) (st : ControllerState),
      ∀ m ∈ (stats_loop sendResult oracle now dpid st body).msgs, msgDpid m = dpid := by
  intro body
  induction body with
  | nil =>
    intro st m hm
    simp [stats_loop] at hm
  | cons stat rest ih =>
    intro st m hm
    simp only [stats_loop, List.mem_append] at hm
    rcases hm with hm | hm
    · exact process_stat_msgs_dpid sendResult oracle now dpid st stat m hm
    · exact ih _ m hm

/-- Processing a reply entry with no previous sample only records the
sample: the controller state is otherwise untouched and no message, log
or decision is produced. -/
theorem process_stat_none (sendResult : SwMsg → Option String)
    (oracle : ℕ → ℕ → ℚ → ℚ → ℕ) (now : ℚ) (dpid : ℕ)
    (st : ControllerState) (stat : PortStat)
    (h : alookup (dpid, stat.port_no) st.last_stats = none) :
    process_stat sendResult oracle now dpid st stat =
      { state := { st with
          last_stats := dictInsert (dpid, stat.port_no) (mkSample now stat) st.last_stats },
        msgs := [], logs := [], decisions := [] } := by
  unfold process_stat
  rw [h]

/-- Processing a reply entry with a previous sample runs the decision
step and then records the current sample over it. -/
theorem process_stat_some (sendResult : SwMsg → Option String)
    (oracle : ℕ → ℕ → ℚ → ℚ → ℕ) (now : ℚ) (dpid : ℕ)
    (st : ControllerState) (stat : PortStat) (prev : Sample)
    (h : alookup (dpid, stat.port_no) st.last_stats = some prev) :
    process_stat sendResult oracle now dpid st stat =
      { decision_step sendResult oracle now dpid st stat prev with
        state := { (decision_step sendResult oracle now dpid st stat prev).state with
          last_stats := dictInsert (dpid, stat.port_no) (mkSample now stat)
            (decision_step sendResult oracle now dpid st stat prev).state.last_stats } } := by
  unfold process_stat
  rw [h]

/-- The decision step with non-negative byte deltas records exactly one
decision: the rates are the deltas times 8 over the clamped dt, and the
action is what the oracle returns on them. -/
theorem decision_step_decisions (sendResult : SwMsg → Option String)
    (oracle : ℕ → ℕ → ℚ → ℚ → ℕ) (now : ℚ) (dpid : ℕ)
    (st : ControllerState) (stat : PortStat) (prev : Sample)
    (htx : stat.tx_bytes - prev.tx_bytes ≥ 0) (hrx : stat.rx_bytes - prev.rx_bytes ≥ 0) :
    (decision_step sendResult oracle now dpid st stat prev).decisions =
      [{ dpid := dpid, port_no := stat.port_no,
         tx_bps := ((stat.tx_bytes - prev.tx_bytes : ℤ) : ℚ) * 8
           / max ((1 : ℚ) / 1000000000) (now - prev.timestamp),
         rx_bps := ((stat.rx_bytes - prev.rx_bytes : ℤ) : ℚ) * 8
           / max ((1 : ℚ) / 1000000000) (now - prev.timestamp),
         action := oracle dpid stat.port_no
           (((stat.tx_bytes - prev.tx_bytes : ℤ) : ℚ) * 8
             / max ((1 : ℚ) / 1000000000) (now - prev.timestamp))
           (((stat.rx_bytes - prev.rx_bytes : ℤ) : ℚ) * 8
             / max ((1 : ℚ) / 1000000000) (now - prev.timestamp)) }] := by
  unfold decision_step
  rw [if_pos ⟨htx, hrx⟩]

/-- The decisions of processing one reply entry are those of its
decision step when a previous sample exists. -/
theorem process_stat_decisions_some (sendResult : SwMsg → Option String)
    (oracle : ℕ → ℕ → ℚ → ℚ → ℕ) (now : ℚ) (dpid : ℕ)
    (st : ControllerState) (stat : PortStat) (prev : Sample)
    (h : alookup (dpid, stat.port_no) st.last_stats = some prev) :
    (process_stat sendResult oracle now dpid st stat).decisions =
      (decision_step sendResult oracle now dpid st stat prev).decisions := by
  rw [process_stat_some sendResult oracle now dpid st stat prev h]

/-- The decision step with a negative byte delta (counter reset): the
interval is discarded without producing anything. -/
theorem decision_step_reset (sendResult : SwMsg → Option String)
    (oracle : ℕ → ℕ → ℚ → ℚ → ℕ) (now : ℚ) (dpid : ℕ)
    (st : ControllerState) (stat : PortStat) (prev : Sample)
    (h : stat.tx_bytes - prev.tx_bytes < 0 ∨ stat.rx_bytes - prev.rx_bytes < 0) :
    decision_step sendResult oracle now dpid st stat prev =
      { state := st, msgs := [], logs := [], decisions := [] } := by
  unfold decision_step
  rw [if_neg]
  intro hc
  rcases h with h | h
  · exact absurd hc.1 (not_le.mpr h)
  · exact absurd hc.2 (not_le.mpr h)

/-- C9: enforcing the NOOP action submits no flow or meter mutation and
leaves the whole controller state unchanged, whatever the switch, port
and prior state (installed mitigations and meter records included). -/
theorem C9_confirmed (sendResult : SwMsg → Option String) (st : ControllerState)
    (dpid in_port : ℕ) :
    enforce_action sendResult st dpid in_port ACT_NOOP
      = { state := st, msgs := [], logs := [], err := none } := rfl

/-- C10: an action identifier outside the enumeration 0 (NOOP),
1 (RATE_LIMIT), 2 (DROP), 3 (REROUTE) falls through every branch of the
enforcement chain: no mutation is submitted, no state is modified, no
log is produced and no exception is raised. -/
theorem C10_confirmed (sendResult : SwMsg → Option String) (st : ControllerState)
    (dpid in_port action_id : ℕ) (h : action_id ∉ [0, 1, 2, 3]) :
    enforce_action sendResult st dpid in_port action_id
      = { state := st, msgs := [], logs := [], err := none } := by
  simp only [List.mem_cons, List.not_mem_nil, or_false, not_or] at h
  obtain ⟨h0, h1, h2, h3⟩ := h
  unfold enforce_action
  rw [if_neg h0, if_neg h1, if_neg h2, if_neg h3]

/-- Witness for C10 at the concrete out-of-range action identifier 7. -/
theorem C10_witness :
    (7 ∉ [0, 1, 2, 3]) ∧
    enforce_action (fun _ => none) st0 1 2 7
      = { state := st0, msgs := [], logs := [], err := none } :=
  ⟨by decide, C10_confirmed (fun _ => none) st0 1 2 7 (by decide)⟩

/-- C2 counterexample: in stFull switch 1 owns an entry in the
forwarding table, the last-sample store and the installed-meter set;
after the disconnect handler runs for switch 1 it is gone from the
registry of datapaths, yet all three other entries are still present,
so the handler does not purge all derived per-switch state. -/
theorem C2_counterexample :
    1 ∉ (state_change_handler stFull 1 DispatcherState.dead).datapaths ∧
    alookup 1 (state_change_handler stFull 1 DispatcherState.dead).mac_to_port
      = some [(101, 2)] ∧
    alookup (1, 3) (state_change_handler stFull 1 DispatcherState.dead).last_stats
      = some sampleA ∧
    (1, 1003) ∈ (state_change_handler stFull 1 DispatcherState.dead).meter_installed := by
  decide

/-- C2 amended: handling a disconnect removes the switch from the
registry of datapaths and changes nothing else: the forwarding table,
the last-sample store and the installed-meter records are left exactly
as they were (entries keyed by the disconnected switch included). -/
theorem C2_amended (st : ControllerState) (dpid : ℕ) :
    dpid ∉ (state_change_handler st dpid DispatcherState.dead).datapaths ∧
    (state_change_handler st dpid DispatcherState.dead).mac_to_port = st.mac_to_port ∧
    (state_change_handler st dpid DispatcherState.dead).last_stats = st.last_stats ∧
    (state_change_handler st dpid DispatcherState.dead).meter_installed
      = st.meter_installed := by
  refine ⟨?_, rfl, rfl, rfl⟩
  simp [state_change_handler, List.mem_filter]

/-- C1 counterexample: switch 1 is absent from the registry of
datapaths, yet processing a stats reply event for it (counters grown,
oracle returning DROP) submits a drop flow mutation to it: the handler
uses the handle carried by the event and never consults the registry. -/
theorem C1_counterexample :
    1 ∉ st13.datapaths ∧
    (port_stats_reply_handler (fun _ => none) (fun _ _ _ _ => ACT_DROP) 1 1
        [stat13] st13).msgs
      = [SwMsg.flowMod (drop_flow_mod 1 3)] := by
  decide

/-- C1 amended: the registry of live datapaths gates only the periodic
polling (a stats request goes exactly to the registered switches);
a processed stats reply is handled with the datapath handle carried by
the event itself, so every mutation it produces targets that switch
whether or not it is still registered. -/
theorem C1_amended (st : ControllerState) :
    (∀ d, SwMsg.portStatsRequest d ∈ monitor_tick st ↔ d ∈ st.datapaths) ∧
    (∀ (sendResult : SwMsg → Option String) (oracle : ℕ → ℕ → ℚ → ℚ → ℕ)
        (now : ℚ) (dpid : ℕ) (body : List PortStat) m,
      m ∈ (port_stats_reply_handler sendResult oracle now dpid body st).msgs →
      msgDpid m = dpid) := by
  constructor
  · intro d
    simp [monitor_tick]
  · intro sendResult oracle now dpid body m hm
    exact stats_loop_msgs_dpid sendResult oracle now dpid body st m hm

/-- C8 counterexample: when the submission raises, the error record
carries only the switch identifier, the port number and the exception
text — not the action: two failing enforcements that differ only in the
action (DROP versus REROUTE) produce identical results, so the action is
not logged. -/
theorem C8_counterexample :
    ACT_DROP ≠ ACT_REROUTE ∧
    enforce_caught fail_all st0 1 3 ACT_DROP
      = enforce_caught fail_all st0 1 3 ACT_REROUTE ∧
    (enforce_caught fail_all st0 1 3 ACT_DROP).logs
      = [LogRec.enforceError 1 3 "Datapath unreachable"] := by
  decide

/-- C8 amended: a failure while submitting an enforcement mutation is
caught and logged with the switch identifier and the port number (the
action is not part of the error record), and does not propagate; when
the meter-create submission itself fails, no message is delivered and
the installed-meter record is not updated, so a retry with a working
connection issues the create. -/
theorem C8_amended (sendResult : SwMsg → Option String) (st : ControllerState)
    (dpid port_no : ℕ) :
    (∀ action e, (enforce_action sendResult st dpid port_no action).err = some e →
      (enforce_caught sendResult st dpid port_no action).logs
        = (enforce_action sendResult st dpid port_no action).logs
            ++ [LogRec.enforceError dpid port_no e] ∧
      (enforce_caught sendResult st dpid port_no action).state
        = (enforce_action sendResult st dpid port_no action).state) ∧
    (∀ e, sendResult (SwMsg.meterMod dpid (1000 + port_no) DEFAULT_LIMIT_KBPS) = some e →
      (dpid, 1000 + port_no) ∉ st.meter_installed →
      enforce_caught sendResult st dpid port_no ACT_METER
        = { state := st, msgs := [], logs := [LogRec.enforceError dpid port_no e] }) ∧
    (∀ rate_kbps, (dpid, 1000 + port_no) ∉ st.meter_installed →
      (ensure_meter (fun _ => none) st dpid (1000 + port_no) rate_kbps).msgs
        = [SwMsg.meterMod dpid (1000 + port_no) rate_kbps]) := by
  refine ⟨?_, ?_, ?_⟩
  · intro action e herr
    simp [enforce_caught, herr]
  · intro e hsend hnot
    have hens : ensure_meter sendResult st dpid (1000 + port_no) DEFAULT_LIMIT_KBPS
        = { state := st, msgs := [], logs := [], err := some e } := by
      unfold ensure_meter
      rw [if_neg hnot, hsend]
    have hact : enforce_action sendResult st dpid port_no ACT_METER
        = { state := st, msgs := [], logs := [], err := some e } := by
      unfold enforce_action
      rw [if_neg (show ¬(ACT_METER = 0) by decide),
          if_pos (show ACT_METER = 1 by decide), hens]
    simp [enforce_caught, hact]
  · intro rate_kbps hnot
    unfold ensure_meter
    rw [if_neg hnot]

/-- Witness for C8's amended statement at a concrete failing
submission: the meter-create for (switch 1, port 3) raises, the caught
result is the error record with dpid 1 and port 3, and the retry under
a working connection issues the create. -/
theorem C8_witness :
    fail_all (SwMsg.meterMod 1 1003 DEFAULT_LIMIT_KBPS) = some "Datapath unreachable" ∧
    ((1, 1003) ∉ st0.meter_installed) ∧
    enforce_caught fail_all st0 1 3 ACT_METER
      = { state := st0, msgs := [],
          logs := [LogRec.enforceError 1 3 "Datapath unreachable"] } :=
  ⟨rfl, by decide,
   (C8_amended fail_all st0 1 3).2.1 "Datapath unreachable" rfl (by decide)⟩

/-- C3 counterexample: at time 5 with a previous sample also taken at
time 5, the elapsed time is 0, yet the round still makes a policy
decision (the oracle is consulted and a decision with the clamped rates
is recorded), because the code clamps dt to 10^-9 instead of skipping. -/
theorem C3_counterexample :
    (5 : ℚ) - s13_at5.timestamp ≤ 0 ∧
    (process_stat (fun _ => none) (fun _ _ _ _ => ACT_NOOP) 5 1 st13_at5
        stat13_same).decisions
      = [{ dpid := 1, port_no := 3, tx_bps := 0, rx_bps := 0, action := ACT_NOOP }] := by
  constructor
  · norm_num [s13_at5]
  · rw [process_stat_decisions_some (fun _ => none) (fun _ _ _ _ => ACT_NOOP) 5 1
          st13_at5 stat13_same s13_at5 rfl,
        decision_step_decisions (fun _ => none) (fun _ _ _ _ => ACT_NOOP) 5 1
          st13_at5 stat13_same s13_at5 (by decide) (by decide)]
    norm_num [stat13_same, s13_at5]

/-- C3 amended: when there is no previous sample the current sample is
recorded and no decision or mutation is produced; when a previous
sample exists the elapsed time is clamped below by 10^-9 rather than
checked, so a decision is made whenever both byte deltas are
non-negative — even when the elapsed time is zero or negative. -/
theorem C3_amended (sendResult : SwMsg → Option String)
    (oracle : ℕ → ℕ → ℚ → ℚ → ℕ) (now : ℚ) (dpid : ℕ)
    (st : ControllerState) (stat : PortStat) :
    (alookup (dpid, stat.port_no) st.last_stats = none →
      (process_stat sendResult oracle now dpid st stat).decisions = [] ∧
      (process_stat sendResult oracle now dpid st stat).msgs = [] ∧
      alookup (dpid, stat.port_no)
          (process_stat sendResult oracle now dpid st stat).state.last_stats
        = some (mkSample now stat)) ∧
    (∀ prev, alookup (dpid, stat.port_no) st.last_stats = some prev →
      stat.tx_bytes - prev.tx_bytes ≥ 0 → stat.rx_bytes - prev.rx_bytes ≥ 0 →
      (process_stat sendResult oracle now dpid st stat).decisions ≠ []) := by
  constructor
  · intro h
    rw [process_stat_none sendResult oracle now dpid st stat h]
    exact ⟨rfl, rfl, alookup_dictInsert_self _ _ _⟩
  · intro prev h htx hrx
    rw [process_stat_decisions_some sendResult oracle now dpid st stat prev h,
        decision_step_decisions sendResult oracle now dpid st stat prev htx hrx]
    simp

/-- Witness for C3's amended statement: with an empty last-sample store
the round only records the sample, and with a previous sample at the
same instant a decision is still made. -/
theorem C3_witness :
    alookup (1, stat13.port_no) st0.last_stats = none ∧
    (process_stat (fun _ => none) (fun _ _ _ _ => ACT_NOOP) 1 1 st0 stat13).decisions = [] ∧
    (process_stat (fun _ => none) (fun _ _ _ _ => ACT_NOOP) 5 1 st13_at5
        stat13_same).decisions ≠ [] :=
  ⟨rfl,
   ((C3_amended (fun _ => none) (fun _ _ _ _ => ACT_NOOP) 1 1 st0 stat13).1 rfl).1,
   (C3_amended (fun _ => none) (fun _ _ _ _ => ACT_NOOP) 5 1 st13_at5 stat13_same).2
     s13_at5 rfl (by decide) (by decide)⟩

/-- C4 counterexample: with a previous sample at time 0 and the reply
at time 10^-10 the elapsed dt is positive, but the clamp to 10^-9 makes
the computed rates 8000 bytes * 8 / 10^-9 = 6.4e13 bits/sec, which is
not delta*8/dt = 6.4e14 bits/sec: for 0 < dt < 10^-9 the rate is not
delta*8/dt. -/
theorem C4_counterexample :
    (0 : ℚ) < (1 / 10000000000 : ℚ) - s13_prev.timestamp ∧
    (process_stat (fun _ => none) (fun _ _ _ _ => ACT_NOOP) (1 / 10000000000) 1
        st13 stat13).decisions
      = [{ dpid := 1, port_no := 3, tx_bps := 64000000000000,
           rx_bps := 64000000000000, action := ACT_NOOP }] ∧
    ((stat13.tx_bytes - s13_prev.tx_bytes : ℤ) : ℚ) * 8
        / ((1 / 10000000000 : ℚ) - s13_prev.timestamp)
      ≠ 64000000000000 := by
  refine ⟨by norm_num [s13_prev], ?_, by norm_num [stat13, s13_prev]⟩
  rw [process_stat_decisions_some (fun _ => none) (fun _ _ _ _ => ACT_NOOP)
        (1 / 10000000000) 1 st13 stat13 s13_prev rfl,
      decision_step_decisions (fun _ => none) (fun _ _ _ _ => ACT_NOOP)
        (1 / 10000000000) 1 st13 stat13 s13_prev (by decide) (by decide)]
  rw [show max ((1 : ℚ) / 1000000000) ((1 / 10000000000 : ℚ) - s13_prev.timestamp)
        = (1 : ℚ) / 1000000000 from max_eq_left (by norm_num [s13_prev])]
  norm_num [stat13, s13_prev]

/-- C4 amended: the poller computes rates delta*8/dt exactly whenever
the elapsed time is at least the clamp floor 10^-9 seconds (below the
floor the clamped denominator is used instead); the offline feature
extractor computes delta*8/dt exactly for every dt > 0; and the
end-to-end scenario (samples at t=0 and t=1 with byte deltas 8000)
yields 64000 bits/sec on both counters, as the witness evaluates. -/
theorem C4_amended (sendResult : SwMsg → Option String)
    (oracle : ℕ → ℕ → ℚ → ℚ → ℕ) (now : ℚ) (dpid : ℕ)
    (st : ControllerState) (stat : PortStat) (prev : Sample)
    (hl : alookup (dpid, stat.port_no) st.last_stats = some prev)
    (hdt : (1 : ℚ) / 1000000000 ≤ now - prev.timestamp)
    (htx : stat.tx_bytes - prev.tx_bytes ≥ 0)
    (hrx : stat.rx_bytes - prev.rx_bytes ≥ 0) :
    (process_stat sendResult oracle now dpid st stat).decisions
      = [{ dpid := dpid, port_no := stat.port_no,
           tx_bps := ((stat.tx_bytes - prev.tx_bytes : ℤ) : ℚ) * 8 / (now - prev.timestamp),
           rx_bps := ((stat.rx_bytes - prev.rx_bytes : ℤ) : ℚ) * 8 / (now - prev.timestamp),
           action := oracle dpid stat.port_no
             (((stat.tx_bytes - prev.tx_bytes : ℤ) : ℚ) * 8 / (now - prev.timestamp))
             (((stat.rx_bytes - prev.rx_bytes : ℤ) : ℚ) * 8 / (now - prev.timestamp)) }] ∧
    (∀ p c : Sample, 0 < c.timestamp - p.timestamp →
      c.tx_bytes - p.tx_bytes ≥ 0 → c.rx_bytes - p.rx_bytes ≥ 0 →
      c.tx_packets - p.tx_packets ≥ 0 → c.rx_packets - p.rx_packets ≥ 0 →
      compute_features_step p c =
        some (((c.tx_bytes - p.tx_bytes : ℤ) : ℚ) * 8 / (c.timestamp - p.timestamp),
              ((c.rx_bytes - p.rx_bytes : ℤ) : ℚ) * 8 / (c.timestamp - p.timestamp),
              ((c.tx_packets - p.tx_packets : ℤ) : ℚ) / (c.timestamp - p.timestamp),
              ((c.rx_packets - p.rx_packets : ℤ) : ℚ) / (c.timestamp - p.timestamp))) := by
  constructor
  · rw [process_stat_decisions_some sendResult oracle now dpid st stat prev hl,
        decision_step_decisions sendResult oracle now dpid st stat prev htx hrx,
        max_eq_right hdt]
  · intro p c hpos h1 h2 h3 h4
    unfold compute_features_step
    rw [if_neg (not_le.mpr hpos), if_neg]
    simp only [not_or, not_lt]
    exact ⟨h1, h2, h3, h4⟩

/-- Witness for C4's amended statement at the spec's end-to-end
scenario: (dpid 1, port 3), previous sample at t=0 with rx 1000 and
tx 2000, reply at t=1 with rx 9000 and tx 10000, yielding exactly 64000
bits/sec on both counters. -/
theorem C4_witness :
    ((1 : ℚ) / 1000000000 ≤ (1 : ℚ) - s13_prev.timestamp) ∧
    (process_stat (fun _ => none) (fun _ _ _ _ => ACT_NOOP) 1 1 st13 stat13).decisions
      = [{ dpid := 1, port_no := 3, tx_bps := 64000, rx_bps := 64000,
           action := ACT_NOOP }] := by
  refine ⟨by norm_num [s13_prev], ?_⟩
  rw [(C4_amended (fun _ => none) (fun _ _ _ _ => ACT_NOOP) 1 1 st13 stat13 s13_prev
        rfl (by norm_num [s13_prev]) (by decide) (by decide)).1]
  norm_num [stat13, s13_prev]

/-- C5: a counter decrease between consecutive samples of a port makes
the poller discard the interval — nothing is submitted and no decision
is made — while the current sample is still recorded; and every
observation handed to the oracle carries non-negative rates, so a
negative rate never reaches the policy. -/
theorem C5_confirmed (sendResult : SwMsg → Option String)
    (oracle : ℕ → ℕ → ℚ → ℚ → ℕ) (now : ℚ) (dpid : ℕ)
    (st : ControllerState) (stat : PortStat) :
    (∀ prev, alookup (dpid, stat.port_no) st.last_stats = some prev →
      stat.tx_bytes - prev.tx_bytes < 0 ∨ stat.rx_bytes - prev.rx_bytes < 0 →
      (process_stat sendResult oracle now dpid st stat).decisions = [] ∧
      (process_stat sendResult oracle now dpid st stat).msgs = [] ∧
      alookup (dpid, stat.port_no)
          (process_stat sendResult oracle now dpid st stat).state.last_stats
        = some (mkSample now stat)) ∧
    (∀ d ∈ (process_stat sendResult oracle now dpid st stat).decisions,
      0 ≤ d.tx_bps ∧ 0 ≤ d.rx_bps) := by
  constructor
  · intro prev h hneg
    rw [process_stat_some sendResult oracle now dpid st stat prev h,
        decision_step_reset sendResult oracle now dpid st stat prev hneg]
    exact ⟨rfl, rfl, alookup_dictInsert_self _ _ _⟩
  · intro d hd
    cases halook : alookup (dpid, stat.port_no) st.last_stats with
    | none =>
      rw [process_stat_none sendResult oracle now dpid st stat halook] at hd
      simp at hd
    | some prev =>
      rw [process_stat_decisions_some sendResult oracle now dpid st stat prev halook] at hd
      by_cases hc : stat.tx_bytes - prev.tx_bytes ≥ 0 ∧ stat.rx_bytes - prev.rx_bytes ≥ 0
      · rw [decision_step_decisions sendResult oracle now dpid st stat prev hc.1 hc.2] at hd
        simp only [List.mem_singleton] at hd
        subst hd
        have hden : (0 : ℚ) ≤ max ((1 : ℚ) / 1000000000) (now - prev.timestamp) :=
          le_trans (by norm_num) (le_max_left _ _)
        constructor
        · exact div_nonneg (mul_nonneg (Int.cast_nonneg.mpr hc.1) (by norm_num)) hden
        · exact div_nonneg (mul_nonneg (Int.cast_nonneg.mpr hc.2) (by norm_num)) hden
      · rw [decision_step_reset sendResult oracle now dpid st stat prev] at hd
        · simp at hd
        · rcases not_and_or.mp hc with h | h
          · exact Or.inl (not_le.mp h)
          · exact Or.inr (not_le.mp h)

/-- Witness for C5 at a concrete counter reset: the rx counter fell
from 1000 to 100, the round makes no decision and submits nothing, and
the reset sample is recorded as the new previous sample. -/
theorem C5_witness :
    (stat13_reset.rx_bytes - s13_prev.rx_bytes < 0 ∨
      stat13_reset.tx_bytes - s13_prev.tx_bytes < 0) ∧
    (process_stat (fun _ => none) (fun _ _ _ _ => ACT_DROP) 2 1 st13
        stat13_reset).decisions = [] ∧
    (process_stat (fun _ => none) (fun _ _ _ _ => ACT_DROP) 2 1 st13
        stat13_reset).msgs = [] :=
  ⟨Or.inl (by decide),
   ((C5_confirmed (fun _ => none) (fun _ _ _ _ => ACT_DROP) 2 1 st13 stat13_reset).1
     s13_prev rfl (Or.inr (by decide))).1,
   ((C5_confirmed (fun _ => none) (fun _ _ _ _ => ACT_DROP) 2 1 st13 stat13_reset).1
     s13_prev rfl (Or.inr (by decide))).2.1⟩

/-- When the meter is already recorded as installed, enforcing
RATE_LIMIT submits only the priority-300 meter flow. -/
theorem enforce_meter_installed (st : ControllerState) (dpid in_port : ℕ)
    (hmem : (dpid, 1000 + in_port) ∈ st.meter_installed) :
    enforce_action (fun _ => none) st dpid in_port ACT_METER
      = { state := st, msgs := [SwMsg.flowMod (meter_flow_mod dpid in_port)],
          logs := [LogRec.installedMeterFlow dpid in_port (1000 + in_port) DEFAULT_LIMIT_KBPS],
          err := none } := by
  have hens : ensure_meter (fun _ => none) st dpid (1000 + in_port) DEFAULT_LIMIT_KBPS
      = { state := st, msgs := [], logs := [], err := none } := by
    unfold ensure_meter
    rw [if_pos hmem]
  unfold enforce_action
  rw [if_neg (show ¬(ACT_METER = 0) by decide),
      if_pos (show ACT_METER = 1 by decide), hens]
  rfl

/-- When the meter is not yet recorded as installed, enforcing
RATE_LIMIT submits the meter create (identifier 1000 plus the port)
followed by the priority-300 meter flow, and records the meter. -/
theorem enforce_meter_fresh (st : ControllerState) (dpid in_port : ℕ)
    (h : (dpid, 1000 + in_port) ∉ st.meter_installed) :
    enforce_action (fun _ => none) st dpid in_port ACT_METER
      = { state := { st with meter_installed := (dpid, 1000 + in_port) :: st.meter_installed },
          msgs := [SwMsg.meterMod dpid (1000 + in_port) DEFAULT_LIMIT_KBPS,
                   SwMsg.flowMod (meter_flow_mod dpid in_port)],
          logs := [LogRec.createdMeter dpid (1000 + in_port) DEFAULT_LIMIT_KBPS,
                   LogRec.installedMeterFlow dpid in_port (1000 + in_port) DEFAULT_LIMIT_KBPS],
          err := none } := by
  have hens : ensure_meter (fun _ => none) st dpid (1000 + in_port) DEFAULT_LIMIT_KBPS
      = { state := { st with meter_installed := (dpid, 1000 + in_port) :: st.meter_installed },
          msgs := [SwMsg.meterMod dpid (1000 + in_port) DEFAULT_LIMIT_KBPS],
          logs := [LogRec.createdMeter dpid (1000 + in_port) DEFAULT_LIMIT_KBPS],
          err := none } := by
    unfold ensure_meter
    rw [if_neg h]
  unfold enforce_action
  rw [if_neg (show ¬(ACT_METER = 0) by decide),
      if_pos (show ACT_METER = 1 by decide), hens]
  rfl

/-- Enforcing RATE_LIMIT always submits the priority-300 meter flow,
whether or not the meter itself was already installed. -/
theorem meter_flow_mem_enforce (st : ControllerState) (dpid in_port : ℕ) :
    SwMsg.flowMod (meter_flow_mod dpid in_port)
      ∈ (enforce_action (fun _ => none) st dpid in_port ACT_METER).msgs := by
  by_cases hmem : (dpid, 1000 + in_port) ∈ st.meter_installed
  · rw [enforce_meter_installed st dpid in_port hmem]
    exact List.mem_singleton_self _
  · rw [enforce_meter_fresh st dpid in_port hmem]
    exact List.mem_cons_of_mem _ (List.mem_singleton_self _)

/-- C6: enforcing RATE_LIMIT twice for the same switch and port issues
exactly one meter-create mutation; the meter identifier is the fixed
offset 1000 plus the port number, and the create is issued only when
(switchId, meterId) is not already recorded in meter_installed. -/
theorem C6_confirmed (st : ControllerState) (dpid in_port : ℕ)
    (h : (dpid, 1000 + in_port) ∉ st.meter_installed) :
    ((enforce_action (fun _ => none) st dpid in_port ACT_METER).msgs
        ++ (enforce_action (fun _ => none)
              (enforce_action (fun _ => none) st dpid in_port ACT_METER).state
              dpid in_port ACT_METER).msgs).countP is_meter_mod = 1 ∧
    SwMsg.meterMod dpid (1000 + in_port) DEFAULT_LIMIT_KBPS
      ∈ (enforce_action (fun _ => none) st dpid in_port ACT_METER).msgs ∧
    (∀ meter_id rate_kbps, (dpid, meter_id) ∈ st.meter_installed →
      ensure_meter (fun _ => none) st dpid meter_id rate_kbps
        = { state := st, msgs := [], logs := [], err := none }) := by
  have h1 := enforce_meter_fresh st dpid in_port h
  have h2 := enforce_meter_installed
    { st with meter_installed := (dpid, 1000 + in_port) :: st.meter_installed }
    dpid in_port (List.mem_cons_self _ _)
  refine ⟨?_, ?_, ?_⟩
  · rw [h1]
    dsimp only
    rw [h2]
    rfl
  · rw [h1]
    exact List.mem_cons_self _ _
  · intro meter_id rate_kbps hmem
    unfold ensure_meter
    rw [if_pos hmem]

/-- Witness for C6 on the empty controller state for switch 1, port 3:
back-to-back RATE_LIMIT enforcement issues exactly one meter create. -/
theorem C6_witness :
    ((1, 1003) ∉ st0.meter_installed) ∧
    ((enforce_action (fun _ => none) st0 1 3 ACT_METER).msgs
        ++ (enforce_action (fun _ => none)
              (enforce_action (fun _ => none) st0 1 3 ACT_METER).state
              1 3 ACT_METER).msgs).countP is_meter_mod = 1 :=
  ⟨by decide, (C6_confirmed st0 1 3 (by decide)).1⟩

/-- C7: the flows the controller installs are strictly ordered by
priority across action types — the DROP flow (400) above the RATE_LIMIT
flow (300), above the REROUTE flow (200), above the learning-switch
unicast rule (1), above the table-miss rule (0) — and the DROP, meter
and reroute flows are exactly what enforcement submits, so a mitigation
flow always takes precedence over ordinary forwarding for its ingress
port. -/
theorem C7_confirmed (st : ControllerState)
    (d1 p1 d2 p2 d3 p3 d4 p4 dst src op d5 : ℕ) :
    (enforce_action (fun _ => none) st d1 p1 ACT_DROP).msgs
      = [SwMsg.flowMod (drop_flow_mod d1 p1)] ∧
    SwMsg.flowMod (meter_flow_mod d2 p2)
      ∈ (enforce_action (fun _ => none) st d2 p2 ACT_METER).msgs ∧
    (enforce_action (fun _ => none) st d3 p3 ACT_REROUTE).msgs
      = [SwMsg.flowMod (reroute_flow_mod d3 p3)] ∧
    (switch_features_handler st d5).2 = [SwMsg.flowMod (table_miss_flow_mod d5)] ∧
    (drop_flow_mod d1 p1).priority > (meter_flow_mod d2 p2).priority ∧
    (meter_flow_mod d2 p2).priority > (reroute_flow_mod d3 p3).priority ∧
    (reroute_flow_mod d3 p3).priority > (learn_flow_mod d4 p4 dst src op).priority ∧
    (learn_flow_mod d4 p4 dst src op).priority > (table_miss_flow_mod d5).priority := by
  refine ⟨rfl, meter_flow_mem_enforce st d2 p2, rfl, rfl, ?_, ?_, ?_, ?_⟩
  · show (400 : ℕ) > 300
    decide
  · show (300 : ℕ) > 200
    decide
  · show (200 : ℕ) > 1
    decide
  · show (1 : ℕ) > 0
    decide

end SDNCC
